import Mathlib

/-!
Shallow embedding of the ingestion service core
(src/microservices/rust/ingestion-service/src): the data model
(models.rs), the error taxonomy and its HTTP rendering (error.rs), and
the request handlers (routes.rs).  The NATS publisher is modelled as an
oracle `Publisher`: a function from subject and record to the publish
outcome; the list of publish calls a handler performs is returned
alongside its response so that "the publisher is never invoked" is a
statement about the model.  Wall-clock reads (`Utc::now()`) are passed
in explicitly; UUIDs are opaque strings.
-/

namespace Ingestion

/-- JSON values, modelling `serde_json::Value`. -/
inductive Json where
  | null : Json
  | bool (b : Bool) : Json
  | num (n : Int) : Json
  | str (s : String) : Json
  | arr (elems : List Json) : Json
  | obj (fields : List (String × Json)) : Json

/-- Modelling `serde_json::Value::is_null`. -/
def Json.is_null : Json → Bool
  | .null => true
  | _ => false

/-- Opaque unique identifiers (`uuid::Uuid`). -/
abbrev Uuid := String

/-- Points in time (`chrono::DateTime<Utc>`). -/
abbrev Timestamp := Int

/-- models.rs `RawData`: one unit of ingestible data. -/
structure RawData where
  id : Uuid
  source : String
  content_type : String
  payload : Json
  timestamp : Timestamp
  metadata : Json

/-- Decoding an inbound JSON object into a `RawData`, modelling the serde
defaults of models.rs: `id` defaults to a fresh `Uuid::new_v4` value,
`timestamp` to `Utc::now()` at decode time, and `metadata` to
`serde_json::Value::default()`, which is the null value. -/
def RawData.decode (freshId : Uuid) (decodeNow : Timestamp)
    (id? : Option Uuid) (source : String) (content_type : String)
    (payload : Json) (timestamp? : Option Timestamp)
    (metadata? : Option Json) : RawData :=
  { id := id?.getD freshId
    source := source
    content_type := content_type
    payload := payload
    timestamp := timestamp?.getD decodeNow
    metadata := metadata?.getD Json.null }

/-- models.rs `BatchRawData`. -/
structure BatchRawData where
  items : List RawData

/-- models.rs `IngestResponse`. -/
structure IngestResponse where
  status : String
  id : Uuid
  timestamp : Timestamp

/-- models.rs `BatchIngestResponse`. -/
structure BatchIngestResponse where
  status : String
  count : Nat
  ids : List Uuid
  timestamp : Timestamp

/-- models.rs `HealthResponse`. -/
structure HealthResponse where
  service : String
  status : String
  version : String
  timestamp : Timestamp

/-- error.rs `AppError`. -/
inductive AppError where
  | NatsConnectionError (msg : String) : AppError
  | NatsPublishError (msg : String) : AppError
  | ValidationError (msg : String) : AppError
  | InternalError (msg : String) : AppError

/-- The JSON error body `{ "error": { "message": ..., "code": ... } }`
produced by error.rs. -/
structure ErrorBody where
  message : String
  code : Nat

/-- error.rs `impl IntoResponse for AppError`: the HTTP status code and
error body each variant renders to. -/
def AppError.into_response : AppError → Nat × ErrorBody
  | .NatsConnectionError msg => (503, { message := msg, code := 503 })
  | .NatsPublishError msg => (500, { message := msg, code := 500 })
  | .ValidationError msg => (400, { message := msg, code := 400 })
  | .InternalError msg => (500, { message := msg, code := 500 })

/-- One call to `NatsClient::publish`: the subject and the record that
was serialized and sent. -/
structure PublishCall where
  subject : String
  payload : RawData

/-- The publisher oracle: what `nats_client.publish(subject, record)`
returns on each call (nats.rs maps failures to `AppError`). -/
abbrev Publisher := String → RawData → Except AppError Unit

/-- routes.rs `health_check`: axum renders `Json<HealthResponse>` with
status 200.  The crate version (`env!("CARGO_PKG_VERSION")`) is a
compile-time constant passed in as `version`. -/
def health_check (version : String) (now : Timestamp) :
    Nat × HealthResponse :=
  (200, { service := "ingestion-service"
          status := "operational"
          version := version
          timestamp := now })

/-- routes.rs `ingest_data`: validate the three fields in order, then
publish to `"ingest.raw." ++ content_type` and answer 201.  `now` is the
`Utc::now()` read taken when the response is created.  The second
component lists the publish calls made. -/
def ingest_data (publish : Publisher) (now : Timestamp)
    (payload : RawData) :
    Except AppError (Nat × IngestResponse) × List PublishCall :=
  if payload.source.isEmpty then
    (.error (.ValidationError "Source field cannot be empty"), [])
  else if payload.content_type.isEmpty then
    (.error (.ValidationError "Content type field cannot be empty"), [])
  else if payload.payload.is_null then
    (.error (.ValidationError "Payload cannot be null"), [])
  else
    let subject := "ingest.raw." ++ payload.content_type
    match publish subject payload with
    | .error e => (.error e, [{ subject := subject, payload := payload }])
    | .ok _ =>
        (.ok (201, { status := "success"
                     id := payload.id
                     timestamp := now }),
         [{ subject := subject, payload := payload }])

/-- The per-item loop of routes.rs `ingest_batch`: skip invalid items,
publish the rest, collect the ids of successful publishes in input
order; also return the publish calls made, in order. -/
def batch_process (publish : Publisher) :
    List RawData → List Uuid × List PublishCall
  | [] => ([], [])
  | item :: rest =>
    if item.source.isEmpty || item.content_type.isEmpty
        || item.payload.is_null then
      batch_process publish rest
    else
      let subject := "ingest.raw." ++ item.content_type
      let call : PublishCall := { subject := subject, payload := item }
      match publish subject item with
      | .ok _ =>
          let step := batch_process publish rest
          (item.id :: step.1, call :: step.2)
      | .error _ =>
          let step := batch_process publish rest
          (step.1, call :: step.2)

/-- routes.rs `ingest_batch`: reject an empty batch with a validation
error, otherwise run the per-item loop and answer 201 with the
collected ids.  `now` is the `Utc::now()` read taken when the response
is created. -/
def ingest_batch (publish : Publisher) (now : Timestamp)
    (payload : BatchRawData) :
    Except AppError (Nat × BatchIngestResponse) × List PublishCall :=
  if payload.items.isEmpty then
    (.error (.ValidationError "Batch contains no items"), [])
  else
    let step := batch_process publish payload.items
    (.ok (201, { status := "success"
                 count := step.1.length
                 ids := step.1
                 timestamp := now }),
     step.2)

/-- The topic-routing rule both handlers inline:
`format!("ingest.raw.\x7b\x7d", content_type)`. -/
def route (content_type : String) : String :=
  "ingest.raw." ++ content_type

/-- An item passes the structural validation of routes.rs (same three
checks in the single and batch paths). -/
def item_valid (item : RawData) : Bool :=
  !(item.source.isEmpty || item.content_type.isEmpty
    || item.payload.is_null)

/-- The publisher oracle accepts this item on the subject the handlers
route it to. -/
def publishOk (publish : Publisher) (item : RawData) : Bool :=
  match publish ("ingest.raw." ++ item.content_type) item with
  | .ok _ => true
  | .error _ => false

/-! Concrete publisher oracles and records used by witnesses and
counterexamples. -/

/-- A publisher whose every call succeeds. -/
def pub_ok : Publisher := fun _ _ => .ok ()

/-- A publisher whose every call fails with a NATS publish error. -/
def pub_fail : Publisher := fun _ _ => .error (.NatsPublishError "NATS down")

/-- A record whose `source` is whitespace only. -/
def ws_record : RawData :=
  { id := "11111111-1111-1111-1111-111111111111"
    source := " "
    content_type := "research_paper"
    payload := Json.str "x"
    timestamp := 0
    metadata := Json.null }

/-- A record whose `source` is the empty string. -/
def empty_source_record : RawData :=
  { id := "22222222-2222-2222-2222-222222222222"
    source := ""
    content_type := "research_paper"
    payload := Json.str "x"
    timestamp := 0
    metadata := Json.null }

/-- A record with a null payload. -/
def null_payload_record : RawData :=
  { id := "33333333-3333-3333-3333-333333333333"
    source := "arxiv"
    content_type := "research_paper"
    payload := Json.null
    timestamp := 0
    metadata := Json.null }

/-- A fully valid record carrying a caller-supplied timestamp of 5. -/
def valid_record : RawData :=
  { id := "44444444-4444-4444-4444-444444444444"
    source := "arxiv"
    content_type := "research_paper"
    payload := Json.str "x"
    timestamp := 5
    metadata := Json.null }

/-! Helper lemmas shared by the claim theorems. -/

/-- A record passes the handlers' validation exactly when the three
checked fields are each well formed. -/
theorem item_valid_iff (r : RawData) :
    item_valid r = true
      ↔ (r.source.isEmpty = false ∧ r.content_type.isEmpty = false
          ∧ r.payload.is_null = false) := by
  simp [item_valid, and_assoc]

/-- On a valid record the publisher accepts, `ingest_data` answers 201
with the record's id and makes exactly one publish call, carrying the
routed subject and the unchanged record. -/
theorem ingest_data_success (publish : Publisher) (now : Timestamp)
    (r : RawData) (hv : item_valid r = true)
    (hp : publishOk publish r = true) :
    ingest_data publish now r
      = (.ok (201, { status := "success", id := r.id, timestamp := now }),
         [{ subject := "ingest.raw." ++ r.content_type, payload := r }]) := by
  obtain ⟨h1, h2, h3⟩ := (item_valid_iff r).mp hv
  cases hpub : publish ("ingest.raw." ++ r.content_type) r with
  | ok u => simp [ingest_data, h1, h2, h3, hpub]
  | error e => simp [publishOk, hpub] at hp

/-- Every publish call `ingest_data` makes uses the routed subject. -/
theorem ingest_data_calls_subject (publish : Publisher) (now : Timestamp)
    (r : RawData) :
    ∀ c ∈ (ingest_data publish now r).2,
      c.subject = "ingest.raw." ++ r.content_type := by
  intro c hc
  by_cases h1 : r.source.isEmpty
  · simp [ingest_data, h1] at hc
  · by_cases h2 : r.content_type.isEmpty
    · simp [ingest_data, h1, h2] at hc
    · by_cases h3 : r.payload.is_null
      · simp [ingest_data, h1, h2, h3] at hc
      · cases hpub : publish ("ingest.raw." ++ r.content_type) r with
        | ok u =>
          simp [ingest_data, h1, h2, h3, hpub] at hc
          simp [hc]
        | error e =>
          simp [ingest_data, h1, h2, h3, hpub] at hc
          simp [hc]

/-- The ids the batch loop collects are the ids of exactly the valid,
successfully published items, in input order. -/
theorem batch_process_fst (publish : Publisher) (items : List RawData) :
    (batch_process publish items).1
      = (items.filter
            (fun it => item_valid it && publishOk publish it)).map
          (fun it => it.id) := by
  induction items with
  | nil => rfl
  | cons item rest ih =>
    rw [List.filter_cons]
    by_cases hval : (item.source.isEmpty || item.content_type.isEmpty
        || item.payload.is_null) = true
    · have hv : item_valid item = false := by simp [item_valid, hval]
      simp [batch_process, hval, hv, ih]
    · have hval' : (item.source.isEmpty || item.content_type.isEmpty
          || item.payload.is_null) = false := by simpa using hval
      have hv : item_valid item = true := by simp [item_valid, hval']
      cases hpub : publish ("ingest.raw." ++ item.content_type) item with
      | ok u =>
        have hpo : publishOk publish item = true := by
          simp [publishOk, hpub]
        simp [batch_process, hval', hv, hpo, hpub, ih]
      | error e =>
        have hpo : publishOk publish item = false := by
          simp [publishOk, hpub]
        simp [batch_process, hval', hv, hpo, hpub, ih]

/-- Every publish call the batch loop makes uses the routed subject of
the record it carries. -/
theorem batch_process_calls_subject (publish : Publisher)
    (items : List RawData) :
    ∀ c ∈ (batch_process publish items).2,
      c.subject = "ingest.raw." ++ c.payload.content_type := by
  induction items with
  | nil => intro c hc; simp [batch_process] at hc
  | cons item rest ih =>
    intro c hc
    by_cases hval : (item.source.isEmpty || item.content_type.isEmpty
        || item.payload.is_null) = true
    · rw [batch_process, if_pos hval] at hc
      exact ih c hc
    · have hval' : (item.source.isEmpty || item.content_type.isEmpty
          || item.payload.is_null) = false := by simpa using hval
      cases hpub : publish ("ingest.raw." ++ item.content_type) item with
      | ok u =>
        simp [batch_process, hval', hpub] at hc
        rcases hc with rfl | hc
        · rfl
        · exact ih c hc
      | error e =>
        simp [batch_process, hval', hpub] at hc
        rcases hc with rfl | hc
        · rfl
        · exact ih c hc

/-- On a non-empty batch, `ingest_batch` answers 201 with the ids of the
valid, successfully published items in input order. -/
theorem ingest_batch_nonempty_eq (publish : Publisher) (now : Timestamp)
    (items : List RawData) (h : items ≠ []) :
    (ingest_batch publish now { items := items }).1
      = .ok (201,
          { status := "success"
            count := ((items.filter
                (fun it => item_valid it && publishOk publish it)).map
                (fun it => it.id)).length
            ids := (items.filter
                (fun it => item_valid it && publishOk publish it)).map
                (fun it => it.id)
            timestamp := now }) := by
  have hne : items.isEmpty = false := by
    cases items with
    | nil => exact absurd rfl h
    | cons a rest => rfl
  simp [ingest_batch, hne, batch_process_fst]

/-! The claim theorems. -/

/-- C10: `health_check` always succeeds: for every invocation it returns
a 200 response whose status field is "operational", together with the
service name, the crate version and a timestamp; it never returns an
error (its type admits none). -/
theorem health_always_operational (version : String) (now : Timestamp) :
    health_check version now
      = (200, { service := "ingestion-service"
                status := "operational"
                version := version
                timestamp := now }) := rfl

/-- C7: routing is the deterministic pure function
`route ct = "ingest.raw." ++ ct`, with no escaping or normalization, and
both the single-item and batch paths publish on exactly that subject. -/
theorem route_pure_concat (ct : String) (publish : Publisher)
    (now : Timestamp) (r : RawData) (items : List RawData) :
    route ct = "ingest.raw." ++ ct
    ∧ (∀ c ∈ (ingest_data publish now r).2,
        c.subject = route r.content_type)
    ∧ (∀ c ∈ (batch_process publish items).2,
        c.subject = route c.payload.content_type) :=
  ⟨rfl, ingest_data_calls_subject publish now r,
    batch_process_calls_subject publish items⟩

/-- C1: `ingest_batch` fails with 400 exactly when the input items
sequence is empty, in which case it publishes nothing; every non-empty
batch answers 201, however many items failed validation or failed to
publish. -/
theorem batch_400_iff_empty (publish : Publisher) (now : Timestamp)
    (payload : BatchRawData) :
    ((∃ e, (ingest_batch publish now payload).1 = .error e
        ∧ e.into_response.1 = 400) ↔ payload.items = [])
    ∧ (payload.items = [] → (ingest_batch publish now payload).2 = [])
    ∧ (payload.items ≠ [] →
        ∃ resp, (ingest_batch publish now payload).1 = .ok (201, resp)) := by
  obtain ⟨items⟩ := payload
  cases items with
  | nil =>
    refine ⟨⟨fun _ => rfl,
      fun _ => ⟨.ValidationError "Batch contains no items", rfl, rfl⟩⟩,
      fun _ => rfl, fun hne => absurd rfl hne⟩
  | cons a rest =>
    have hok := ingest_batch_nonempty_eq publish now (a :: rest)
      (fun h => nomatch h)
    refine ⟨⟨?_, ?_⟩, ?_, fun _ => ⟨_, hok⟩⟩
    · rintro ⟨e, he, -⟩
      rw [hok] at he
      exact nomatch he
    · intro h
      exact nomatch h
    · intro h
      exact nomatch h

/-- C2: on every non-empty batch the outcome's ids are exactly the ids
of the items that passed validation and published successfully, in the
same relative order as in the input, and `count` is their number. -/
theorem batch_ids_successful_in_order (publish : Publisher)
    (now : Timestamp) (payload : BatchRawData)
    (h : payload.items ≠ []) :
    ∃ resp, (ingest_batch publish now payload).1 = .ok (201, resp)
      ∧ resp.ids = (payload.items.filter
            (fun it => item_valid it && publishOk publish it)).map
            (fun it => it.id)
      ∧ resp.count = resp.ids.length :=
  ⟨_, ingest_batch_nonempty_eq publish now payload.items h, rfl, rfl⟩

/-- Witness for C2: a two-item batch in which the first item is valid
and published and the second fails validation. -/
theorem batch_ids_successful_in_order_witness :
    ∃ resp,
      (ingest_batch pub_ok 0
          { items := [valid_record, empty_source_record] }).1
        = .ok (201, resp)
      ∧ resp.ids = (([valid_record, empty_source_record] : List RawData).filter
            (fun it => item_valid it && publishOk pub_ok it)).map
            (fun it => it.id)
      ∧ resp.count = resp.ids.length :=
  batch_ids_successful_in_order pub_ok 0
    { items := [valid_record, empty_source_record] }
    (fun h => nomatch h)

/-- C3: every record with empty source, empty content type or null
payload makes `ingest_data` answer a validation error rendering to 400
carrying the failure reason, and the publisher is never invoked. -/
theorem invalid_record_400_no_publish (publish : Publisher)
    (now : Timestamp) (r : RawData)
    (h : r.source = "" ∨ r.content_type = "" ∨ r.payload.is_null = true) :
    (∃ msg, (ingest_data publish now r).1
        = .error (.ValidationError msg)
      ∧ (AppError.ValidationError msg).into_response
          = (400, { message := msg, code := 400 }))
    ∧ (ingest_data publish now r).2 = [] := by
  by_cases h1 : r.source.isEmpty
  · exact ⟨⟨"Source field cannot be empty", by simp [ingest_data, h1],
      rfl⟩, by simp [ingest_data, h1]⟩
  · by_cases h2 : r.content_type.isEmpty
    · exact ⟨⟨"Content type field cannot be empty",
        by simp [ingest_data, h1, h2], rfl⟩,
        by simp [ingest_data, h1, h2]⟩
    · by_cases h3 : r.payload.is_null
      · exact ⟨⟨"Payload cannot be null",
          by simp [ingest_data, h1, h2, h3], rfl⟩,
          by simp [ingest_data, h1, h2, h3]⟩
      · rcases h with h | h | h
        · exact absurd (h ▸ rfl) h1
        · exact absurd (h ▸ rfl) h2
        · exact absurd h (by simpa using h3)

/-- Witness for C3: a record with a null payload is rejected with 400
and nothing is published. -/
theorem invalid_record_400_no_publish_witness :
    (∃ msg, (ingest_data pub_ok 0 null_payload_record).1
        = .error (.ValidationError msg)
      ∧ (AppError.ValidationError msg).into_response
          = (400, { message := msg, code := 400 }))
    ∧ (ingest_data pub_ok 0 null_payload_record).2 = [] :=
  invalid_record_400_no_publish pub_ok 0 null_payload_record
    (Or.inr (Or.inr rfl))

/-- C9: the caller cannot tell a validation skip from a publish-failure
skip: two runs whose batches agree except at one position — where one
run's item fails validation and the other run's item is valid but its
publish fails — and whose publishers agree on all the surrounding
items, produce equal batch responses. -/
theorem skip_reasons_indistinguishable (publish1 publish2 : Publisher)
    (now : Timestamp) (l r : List RawData) (a b : RawData)
    (ha : item_valid a = false)
    (hb : item_valid b = true)
    (hbp : publishOk publish2 b = false)
    (hagree : ∀ it ∈ l ++ r,
        publishOk publish1 it = publishOk publish2 it) :
    (ingest_batch publish1 now { items := l ++ a :: r }).1
      = (ingest_batch publish2 now { items := l ++ b :: r }).1 := by
  have hne1 : l ++ a :: r ≠ [] := by simp
  have hne2 : l ++ b :: r ≠ [] := by simp
  rw [ingest_batch_nonempty_eq publish1 now _ hne1,
    ingest_batch_nonempty_eq publish2 now _ hne2]
  have hfilter :
      (l ++ a :: r).filter (fun it => item_valid it && publishOk publish1 it)
        = (l ++ b :: r).filter
            (fun it => item_valid it && publishOk publish2 it) := by
    rw [List.filter_append, List.filter_append, List.filter_cons,
      List.filter_cons]
    have hl : l.filter (fun it => item_valid it && publishOk publish1 it)
        = l.filter (fun it => item_valid it && publishOk publish2 it) :=
      List.filter_congr (fun it hit => by
        rw [hagree it (List.mem_append_left r hit)])
    have hr : r.filter (fun it => item_valid it && publishOk publish1 it)
        = r.filter (fun it => item_valid it && publishOk publish2 it) :=
      List.filter_congr (fun it hit => by
        rw [hagree it (List.mem_append_right l hit)])
    simp [ha, hb, hbp, hl, hr]
  rw [hfilter]

/-- Witness for C9: a one-item batch whose item fails validation under
an always-successful publisher, against a one-item batch whose item is
valid but whose publisher always fails. -/
theorem skip_reasons_indistinguishable_witness :
    (ingest_batch pub_ok 0 { items := [] ++ empty_source_record :: [] }).1
      = (ingest_batch pub_fail 0 { items := [] ++ valid_record :: [] }).1 :=
  skip_reasons_indistinguishable pub_ok pub_fail 0 [] []
    empty_source_record valid_record rfl rfl rfl
    (fun _ hit => nomatch hit)

/-- C4 counterexample: a record whose source is a single space — a
non-empty string every character of which is whitespace, so it trims to
the empty string — is NOT rejected: `ingest_data` answers 201 and
publishes it, because the code checks emptiness of the untrimmed
string. -/
theorem whitespace_source_not_rejected :
    ws_record.source ≠ ""
    ∧ ws_record.source.data.all Char.isWhitespace = true
    ∧ (ingest_data pub_ok 0 ws_record).1
        = .ok (201, { status := "success"
                      id := ws_record.id
                      timestamp := 0 })
    ∧ (ingest_data pub_ok 0 ws_record).2
        = [{ subject := "ingest.raw.research_paper"
             payload := ws_record }] := by
  refine ⟨by decide, by decide, ?_, ?_⟩
  · rw [ingest_data_success pub_ok 0 ws_record (by decide) rfl]
  · rw [ingest_data_success pub_ok 0 ws_record (by decide) rfl]
    rfl

/-- C4 amended: validation rejects a record's source only when it is
literally the empty string — no trimming is applied, so a
whitespace-only source passes the source check.  When the source is
empty, `ingest_data` answers the source-empty validation error with no
publish call, and the item is skipped by the batch loop. -/
theorem empty_source_rejected_untrimmed (publish : Publisher)
    (now : Timestamp) (r : RawData) (h : r.source = "") :
    (ingest_data publish now r).1
        = .error (.ValidationError "Source field cannot be empty")
    ∧ (ingest_data publish now r).2 = []
    ∧ ∀ rest, batch_process publish (r :: rest)
        = batch_process publish rest := by
  have h1 : r.source.isEmpty = true := by rw [h]; rfl
  exact ⟨by simp [ingest_data, h1], by simp [ingest_data, h1],
    fun rest => by simp [batch_process, h1]⟩

/-- Witness for C4 amended: the empty-source record is rejected with the
source-empty reason and skipped by the batch loop. -/
theorem empty_source_rejected_untrimmed_witness :
    (ingest_data pub_ok 0 empty_source_record).1
        = .error (.ValidationError "Source field cannot be empty")
    ∧ (ingest_data pub_ok 0 empty_source_record).2 = []
    ∧ ∀ rest, batch_process pub_ok (empty_source_record :: rest)
        = batch_process pub_ok rest :=
  empty_source_rejected_untrimmed pub_ok 0 empty_source_record rfl

/-- C5: on a valid, decoded record whose publish succeeds, `ingest_data`
answers 201 with status "success" and the id the record carried into
the pipeline — the caller-supplied one when present, otherwise the
freshly generated one — and the single publish call hands the publisher
the record with that id unchanged. -/
theorem success_roundtrips_id (publish : Publisher) (now : Timestamp)
    (freshId : Uuid) (decodeNow : Timestamp) (id? : Option Uuid)
    (source : String) (content_type : String) (payload : Json)
    (timestamp? : Option Timestamp) (metadata? : Option Json)
    (r : RawData)
    (hr : r = RawData.decode freshId decodeNow id? source content_type
        payload timestamp? metadata?)
    (hv : item_valid r = true) (hp : publishOk publish r = true) :
    (ingest_data publish now r).1
        = .ok (201, { status := "success"
                      id := id?.getD freshId
                      timestamp := now })
    ∧ (ingest_data publish now r).2
        = [{ subject := route r.content_type, payload := r }]
    ∧ r.id = id?.getD freshId := by
  have hid : r.id = id?.getD freshId := by rw [hr]; rfl
  rw [ingest_data_success publish now r hv hp]
  exact ⟨by rw [hid], rfl, hid⟩

/-- Witness for C5: a decoded record with a caller-supplied id is
accepted, answered with that id, and published carrying it. -/
theorem success_roundtrips_id_witness :
    (ingest_data pub_ok 0
        (RawData.decode "fresh-id" 3 (some "given-id") "arxiv"
          "research_paper" (Json.str "x") (some 5) none)).1
        = .ok (201, { status := "success"
                      id := (some "given-id").getD "fresh-id"
                      timestamp := 0 })
    ∧ (ingest_data pub_ok 0
        (RawData.decode "fresh-id" 3 (some "given-id") "arxiv"
          "research_paper" (Json.str "x") (some 5) none)).2
        = [{ subject := route (RawData.decode "fresh-id" 3
              (some "given-id") "arxiv" "research_paper" (Json.str "x")
              (some 5) none).content_type
             payload := RawData.decode "fresh-id" 3 (some "given-id")
              "arxiv" "research_paper" (Json.str "x") (some 5) none }]
    ∧ (RawData.decode "fresh-id" 3 (some "given-id") "arxiv"
        "research_paper" (Json.str "x") (some 5) none).id
        = (some "given-id").getD "fresh-id" :=
  success_roundtrips_id pub_ok 0 "fresh-id" 3 (some "given-id") "arxiv"
    "research_paper" (Json.str "x") (some 5) none _ rfl (by decide) rfl

/-- C6 counterexample: a valid record carrying the caller-supplied
timestamp 5, processed when the clock reads 7, is answered with
timestamp 7 — the outcome does not carry the record's own timestamp. -/
theorem response_timestamp_not_record_timestamp :
    valid_record.timestamp = 5
    ∧ (ingest_data pub_ok 7 valid_record).1
        = .ok (201, { status := "success"
                      id := valid_record.id
                      timestamp := 7 })
    ∧ (7 : Timestamp) ≠ 5 := by
  refine ⟨rfl, ?_, by decide⟩
  rw [ingest_data_success pub_ok 7 valid_record (by decide) rfl]

/-- C6 amended: the outcome of a successful `ingest_data` carries a
fresh clock reading taken when the response is assembled, independent
of the timestamp the record itself carries. -/
theorem success_timestamp_is_response_time (publish : Publisher)
    (now : Timestamp) (r : RawData) (hv : item_valid r = true)
    (hp : publishOk publish r = true) :
    (ingest_data publish now r).1
      = .ok (201, { status := "success", id := r.id, timestamp := now }) := by
  rw [ingest_data_success publish now r hv hp]

/-- Witness for C6 amended: the record carrying timestamp 5 is answered
with the response-time clock reading 7. -/
theorem success_timestamp_is_response_time_witness :
    (ingest_data pub_ok 7 valid_record).1
      = .ok (201, { status := "success"
                    id := valid_record.id
                    timestamp := 7 }) :=
  success_timestamp_is_response_time pub_ok 7 valid_record
    (by decide) rfl

/-- C8 counterexample: decoding a record that omits `metadata` yields
the JSON null value, which is not an empty structure — `is_null`
separates it from the empty object. -/
theorem metadata_default_is_null :
    (RawData.decode "fresh-id" 0 none "arxiv" "research_paper"
        (Json.str "x") none none).metadata = Json.null
    ∧ (RawData.decode "fresh-id" 0 none "arxiv" "research_paper"
        (Json.str "x") none none).metadata.is_null = true
    ∧ (Json.obj []).is_null = false
    ∧ Json.null ≠ Json.obj [] :=
  ⟨rfl, rfl, rfl, fun h => nomatch h⟩

/-- C8 amended: a record that omits `metadata` decodes with metadata
equal to JSON null — the default of the serde JSON value type — not an
empty object. -/
theorem metadata_defaults_to_null (freshId : Uuid)
    (decodeNow : Timestamp) (id? : Option Uuid) (source : String)
    (content_type : String) (payload : Json)
    (timestamp? : Option Timestamp) :
    (RawData.decode freshId decodeNow id? source content_type payload
        timestamp? none).metadata = Json.null := rfl

end Ingestion
